import Mathlib

attribute [local semireducible] Rat.mul Rat.inv Rat.add Rat.sub

set_option maxRecDepth 8000

/-!
Shallow embedding of the realtime voice conversation controller of the
Customer-Support-Agent repository (file `src/ui/src/app/voice/page.tsx`).

Strings are modelled as `List Char` (the page only handles ASCII transcripts;
JavaScript string indexing, `slice`, `toLowerCase`, `trim`, `split(/\s+/)`,
`includes` and `indexOf` are all character-based on such inputs).
Word-overlap ratios are modelled as exact rationals; the JavaScript numbers
are IEEE doubles, but every quantity compared here is a ratio of small
integers, where the double computation is exact.
-/

namespace VoiceCtl

abbrev Str := List Char

/-- Models JavaScript `String.prototype.trim`: drop whitespace on both ends. -/
def jsTrim (s : Str) : Str :=
  ((s.dropWhile Char.isWhitespace).reverse.dropWhile Char.isWhitespace).reverse

/-- Models JavaScript `String.prototype.toLowerCase` on ASCII text. -/
def jsToLower (s : Str) : Str := s.map Char.toLower

/-- Models JavaScript `String.prototype.trimStart`. -/
def jsTrimStart (s : Str) : Str := s.dropWhile Char.isWhitespace

/-- Models `s.split(/\s+/)` as the list of maximal non-whitespace runs.
(JS `split(/\s+/)` can additionally emit empty boundary tokens, but every
caller in the page immediately filters the result by `w.length > 2`, under
which the two readings agree.) -/
def splitWsAux (cur : Str) : Str → List Str
  | [] => if cur = [] then [] else [cur.reverse]
  | c :: rest =>
    if c.isWhitespace then
      if cur = [] then splitWsAux [] rest else cur.reverse :: splitWsAux [] rest
    else splitWsAux (c :: cur) rest

def splitWs (s : Str) : List Str := splitWsAux [] s

/-- `text.split(/\s+/).filter(w => w.length > 2)` — the word lists used by the
echo heuristics of the page. -/
def echoWords (s : Str) : List Str := (splitWs s).filter (fun w => 2 < w.length)

/-- First index of `key` inside a string, models JS `indexOf` (`none` = -1). -/
def idxOf (key : Str) : Str → Option Nat
  | [] => if key = [] then some 0 else none
  | s@(_ :: rest) =>
    if key.isPrefixOf s then some 0
    else match idxOf key rest with
      | some i => some (i + 1)
      | none => none

/-- Models JS `a.includes(b)` (substring containment). -/
def jsIncludes (a b : Str) : Bool := (idxOf b a).isSome

/-- Length of the longest common prefix of two strings; models the
`while (prefixLen < max && normalized[prefixLen] === candidate[prefixLen])`
loop of `stripAssistantEchoFromText`. -/
def commonPrefixLen : Str → Str → Nat
  | a :: as, b :: bs => if a = b then commonPrefixLen as bs + 1 else 0
  | _, _ => 0

/-- The candidate list `[lastAssistantTextRef.current, ...assistantUtterancesRef.current]
.map(s => s.toLowerCase().trim()).filter(Boolean)` shared by the echo helpers. -/
def echoCandidates (lastText : Str) (utts : List Str) : List Str :=
  ((lastText :: utts).map (fun s => jsTrim (jsToLower s))).filter (fun s => s ≠ [])

/-- The candidate loop of `assistantEchoOverlapRatio` (page lines 264-276):
running best ratio with the `bestRatio >= 0.9` early return. -/
def bestOverlap (inputWords : List Str) : List Str → ℚ → ℚ
  | [], best => best
  | c :: rest, best =>
    let responseWords := (echoWords c).dedup
    if responseWords.length < 2 then bestOverlap inputWords rest best
    else
      let matchCount := (inputWords.filter (fun w => responseWords.contains w)).length
      let r : ℚ := (matchCount : ℚ) / (inputWords.length : ℚ)
      let best2 := if best < r then r else best
      if 9/10 ≤ best2 then best2 else bestOverlap inputWords rest best2

/-- `assistantEchoOverlapRatio` (page lines 250-279): the best fraction of
candidate words (length > 2) found in an assistant utterance's word set. -/
def assistantEchoOverlapRatio (lastText : Str) (utts : List Str) (text : Str) : ℚ :=
  let normalizedText := jsTrim (jsToLower text)
  if normalizedText = [] then 0
  else
    let inputWords := echoWords normalizedText
    if inputWords.length < 2 then 0
    else bestOverlap inputWords (echoCandidates lastText utts) 0

/-- The candidate loop of `stripAssistantEchoFromText` (page lines 293-316).
`lower`/`normalized` are recomputed per candidate; they are pure functions of
`text`, so this agrees with the source's single computation before the loop. -/
def stripEchoLoop (text : Str) : List Str → Str
  | [] => text
  | candidate :: rest =>
    let lower := jsToLower text
    let normalized := jsTrim lower
    -- entire recognized text contained in what we just spoke → pure echo
    if 10 < normalized.length ∧ jsIncludes candidate normalized then []
    else
      let pl := commonPrefixLen normalized candidate
      if 18 ≤ pl then
        jsTrimStart (text.drop (text.length - (lower.length - pl)))
      else
        let key := candidate.take 48
        if 24 ≤ key.length then
          match idxOf key normalized with
          | some idx =>
            if idx ≤ 5 then
              let cut := idx + key.length
              jsTrimStart (text.drop (text.length - (lower.length - cut)))
            else stripEchoLoop text rest
          | none => stripEchoLoop text rest
        else stripEchoLoop text rest

/-- `stripAssistantEchoFromText` (page lines 281-319). -/
def stripAssistantEchoFromText (lastText : Str) (utts : List Str) (text : Str) : Str :=
  let normalized := jsTrim (jsToLower text)
  if normalized = [] then []
  else stripEchoLoop text (echoCandidates lastText utts)

/-- The tail-echo sanitising block of `recognition.onresult`
(page lines 454-462): within the ignore window the transcript is dropped
(`none`), or replaced by the possibly-stripped text. `ignoreUntil = 0` models
the falsy `ignoreRecognitionUntilRef.current`. -/
def applyTailEchoFilter (lastText : Str) (utts : List Str)
    (now ignoreUntil : Nat) (text : Str) : Option Str :=
  if ignoreUntil ≠ 0 ∧ now < ignoreUntil then
    let overlap := assistantEchoOverlapRatio lastText utts text
    if 17/20 ≤ overlap then none
    else if 7/20 ≤ overlap then
      let cleaned := stripAssistantEchoFromText lastText utts text
      if cleaned = [] then none else some cleaned
    else some text
  else some text

/-! ## The mutable state of the voice session controller

`VoiceRefs` gathers the long-lived mutable cells (`useRef`) and React state of
`VoicePageContent` that the control flow reads and writes.  React state setters
(`setState`, `setIsProcessing`, `setTranscripts`) are modelled as immediate
field updates; the `stateRef`-syncing effect is folded into `setVState`
(and `stop()` assigns `stateRef` eagerly itself, as in the source).
AbortControllers are modelled by token ids so that an `abort()` call on a
particular controller can be observed in the event trace. -/

inductive VState
  | idle | listening | thinking | speaking
deriving DecidableEq, Repr

inductive Mode
  | pushToTalk | continuous
deriving DecidableEq, Repr

inductive Role
  | user | assistant
deriving DecidableEq, Repr

/-- A transcript entry; the source's `id` (uuid) and `timestamp` fields are
carried along for display only and are not observable by any claim, so they
are omitted. -/
structure TranscriptEntry where
  role : Role
  text : Str
  isFinal : Bool
deriving DecidableEq, Repr

structure VoiceRefs where
  mode : Mode                     -- modeRef.current
  uiState : VState                -- React state `state`
  stateRef : VState               -- stateRef.current
  isProcessingUi : Bool           -- React state `isProcessing`
  transcripts : List TranscriptEntry
  stopped : Bool                  -- stoppedRef.current
  audioCancelled : Bool           -- audioCancelledRef.current
  processing : Bool               -- processingRef.current
  isSpeaking : Bool               -- isSpeakingRef.current
  suspendRecognition : Bool       -- suspendRecognitionRef.current
  ignoreUntil : Nat               -- ignoreRecognitionUntilRef.current (0 = falsy/unset)
  lastTranscript : Str            -- lastTranscriptRef.current
  lastAssistantText : Str         -- lastAssistantTextRef.current
  assistantUtterances : List Str  -- assistantUtterancesRef.current
  ttsStartTime : Nat              -- ttsStartTimeRef.current
  ttsEndTime : Nat                -- ttsEndTimeRef.current (0 = currently playing/unset)
  queryAbortTok : Option Nat      -- queryAbortRef.current (token id of the controller)
  ttsAbortTok : Option Nat        -- ttsAbortRef.current
  nextTok : Nat                   -- fresh token-id supply for new AbortControllers
  recognition : Option Unit       -- recognitionRef.current
  audio : Option Unit             -- audioRef.current
  audioUrl : Option Unit          -- audioUrlRef.current
  micStream : Option Unit         -- micStreamRef.current
  audioContext : Option Unit      -- audioContextRef.current
  analyser : Option Unit          -- analyserRef.current
  vadInterval : Option Unit       -- vadIntervalRef.current
  vadConsecutive : Nat            -- vadConsecutiveRef.current
deriving DecidableEq, Repr

/-- Observable external effects of the controller.  `scheduleRecStart d`
records a recognition restart scheduled via `window.setTimeout(..., d)`;
a synchronous `recognition.start()` call is recorded as delay `0`.
`scheduleGraceClear d` records the `setTimeout` that clears
`lastAssistantTextRef` after the grace period `d`. -/
inductive Evt
  | cancelQuery (tok : Nat)       -- queryAbortRef.current?.abort()
  | cancelTts (tok : Nat)         -- ttsAbortRef.current?.abort()
  | detachRecHandlers             -- recognition.onend/onerror/onresult = null
  | recognitionStop               -- recognition.stop()
  | detachAudioHandlers           -- audio.onended/onerror/onpause = null
  | audioPause                    -- audio.pause(); audio.src = ''
  | revokeUrl                     -- URL.revokeObjectURL(...)
  | clearVadTimer                 -- window.clearInterval(vadIntervalRef.current)
  | issueChatRequest (tok : Nat)  -- apiClient.chat(..., { signal }) issued
  | surfaceError                  -- toast.error(...)
  | scheduleRecStart (delayMs : Nat)
  | scheduleGraceClear (delayMs : Nat)
  | addedTranscript (role : Role) (text : Str) (isFinal : Bool)
  | processTurn (text : Str)      -- processUserInputRef.current?.(text)
deriving DecidableEq, Repr

/-- Models `setState(v)` together with the effect that syncs `stateRef`. -/
def setVState (s : VoiceRefs) (v : VState) : VoiceRefs :=
  { s with uiState := v, stateRef := v }

/-- Which fallible platform calls throw during `stop()`.  Every such call in
the source sits in a `try`/`catch` whose `finally` (or subsequent code) still
nulls the ref, so a throw is absorbed; only the recorded event (the completed
external effect) differs. -/
structure FailOracle where
  abortQueryThrows : Bool
  abortTtsThrows : Bool
  recStopThrows : Bool
  audioPauseThrows : Bool
deriving DecidableEq, Repr

/-- `stopBargeInMonitor` (page lines 321-331): clear the VAD polling timer and
reset the consecutive-sample counter.  (`clearInterval` does not throw; the
`try`/`catch` around it is defensive only.) -/
def stopBargeInMonitor (s : VoiceRefs) : VoiceRefs × List Evt :=
  match s.vadInterval with
  | some _ => ({ s with vadInterval := none, vadConsecutive := 0 }, [Evt.clearVadTimer])
  | none => ({ s with vadConsecutive := 0 }, [])

/-- `stop` (page lines 897-972), the explicit teardown.  Each `try` block's
failure is absorbed and the `finally` still nulls the corresponding ref, so
the resulting state does not depend on the oracle; a throwing call merely
loses its event. -/
def stop (f : FailOracle) (s : VoiceRefs) : VoiceRefs × List Evt :=
  -- set stopped flag FIRST; make handlers see idle immediately
  let s := { s with stopped := true, audioCancelled := true, stateRef := VState.idle }
  -- cancel in-flight work (abort in try, ref nulled in finally)
  let (s, e1) := match s.queryAbortTok with
    | some t => ({ s with queryAbortTok := none },
                 if f.abortQueryThrows then [] else [Evt.cancelQuery t])
    | none => (s, ([] : List Evt))
  let (s, e2) := match s.ttsAbortTok with
    | some t => ({ s with ttsAbortTok := none },
                 if f.abortTtsThrows then [] else [Evt.cancelTts t])
    | none => (s, [])
  -- stop speech recognition (handlers removed before stop; ref nulled in finally)
  let (s, e3) := match s.recognition with
    | some _ => ({ s with recognition := none },
                 Evt.detachRecHandlers :: if f.recStopThrows then [] else [Evt.recognitionStop])
    | none => (s, [])
  -- stop audio playback (handlers removed before pause; ref nulled in finally)
  let (s, e4) := match s.audio with
    | some _ => ({ s with audio := none },
                 Evt.detachAudioHandlers :: if f.audioPauseThrows then [] else [Evt.audioPause])
    | none => (s, [])
  -- revoke object URL (infallible platform call)
  let (s, e5) := match s.audioUrl with
    | some _ => ({ s with audioUrl := none }, [Evt.revokeUrl])
    | none => (s, [])
  -- reset all state flags
  let s := { s with isSpeaking := false, suspendRecognition := false }
  let (s, e6) := stopBargeInMonitor s
  let s := { s with processing := false, lastTranscript := [], lastAssistantText := [] }
  -- reset UI state
  let s := { s with uiState := VState.idle, isProcessingUi := false }
  (s, e1 ++ e2 ++ e3 ++ e4 ++ e5 ++ e6)

/-! ## Transcript log -/

/-- `addTranscript` (page lines 181-200).  An interim (`isFinal = false`) user
result replaces the final entry when that entry is an interim user entry (the
source expresses the replacement as
`prev.map((t, i) => i === prev.length - 1 ? { ...t, text, isFinal } : t)`);
every other call appends a fresh entry. -/
def addTranscript (prev : List TranscriptEntry) (role : Role) (text : Str)
    (isFinal : Bool) : List TranscriptEntry :=
  if role = Role.user ∧ isFinal = false then
    match prev.getLast? with
    | some last =>
      if last.isFinal = false ∧ last.role = Role.user then
        prev.dropLast ++ [{ last with text := text, isFinal := isFinal }]
      else prev ++ [⟨role, text, isFinal⟩]
    | none => prev ++ [⟨role, text, isFinal⟩]
  else prev ++ [⟨role, text, isFinal⟩]

/-- Repeated application of `addTranscript`, for stating what later calls can
and cannot change. -/
def applyTranscriptOps (prev : List TranscriptEntry) :
    List (Role × Str × Bool) → List TranscriptEntry
  | [] => prev
  | (r, t, f) :: rest => applyTranscriptOps (addTranscript prev r t f) rest

/-! ## Echo similarity applied outside the ignore window -/

/-- The candidate loop of `isSimilarToLastResponse` (page lines 225-245). -/
def similarLoop (ntext : Str) : List Str → Bool
  | [] => false
  | c :: rest =>
    -- substring match (common when the speaker leaks into the mic)
    if (jsIncludes c ntext ∨ jsIncludes ntext (c.take 24)) ∧ 3 < ntext.length then true
    else
      -- word overlap heuristic
      let inputWords := echoWords ntext
      let responseWords := (echoWords c).dedup
      if inputWords.length < 2 ∨ responseWords.length < 2 then similarLoop ntext rest
      else if (1 : ℚ)/2 <
          ((inputWords.filter (fun w => responseWords.contains w)).length : ℚ) /
            (inputWords.length : ℚ) then true
      else similarLoop ntext rest

/-- `isSimilarToLastResponse` (page lines 203-248): the always-on 6-second
post-playback echo filter. -/
def isSimilarToLastResponse (now ttsStart ttsEnd : Nat) (lastText : Str)
    (utts : List Str) (text : Str) : Bool :=
  let withinWindow :=
    (0 < ttsEnd ∧ now - ttsEnd ≤ 6000) ∨
      (ttsEnd = 0 ∧ 0 < ttsStart ∧ now - ttsStart ≤ 6000 + 2000)
  if ¬withinWindow then false
  else
    let normalizedText := jsTrim (jsToLower text)
    if normalizedText = [] then false
    else similarLoop normalizedText (echoCandidates lastText utts)

/-! ## Recognition callbacks -/

/-- `recognition.onresult` (page lines 440-513) applied to the last result of
the event, given the current clock `now`. -/
def onresult (now : Nat) (transcript : Str) (isFinal : Bool) (s : VoiceRefs) :
    VoiceRefs × List Evt :=
  if s.stopped ∨ s.stateRef = VState.idle then (s, [])
  else if s.suspendRecognition then (s, [])
  else
    let text0 := jsTrim transcript
    -- tail-echo window sanitising (discard or strip)
    match applyTailEchoFilter s.lastAssistantText s.assistantUtterances now
        s.ignoreUntil text0 with
    | none => (s, [])
    | some text =>
      -- push-to-talk accepts results only while listening and not processing
      if s.mode = Mode.pushToTalk ∧ (s.stateRef ≠ VState.listening ∨ s.processing) then
        (s, [])
      else if s.isSpeaking then (s, [])
      else if isSimilarToLastResponse now s.ttsStartTime s.ttsEndTime
          s.lastAssistantText s.assistantUtterances text then (s, [])
      else
        let s1 := { s with transcripts := addTranscript s.transcripts Role.user text isFinal }
        let e0 := [Evt.addedTranscript Role.user text isFinal]
        if isFinal ∧ ¬s.processing ∧ jsTrim text ≠ [] then
          let s2 := { s1 with lastTranscript := text }
          -- echo-dominant final within the tail window: display it, do not send it
          if s.ignoreUntil ≠ 0 ∧ now < s.ignoreUntil ∧
              3/5 ≤ assistantEchoOverlapRatio s.lastAssistantText s.assistantUtterances text then
            (s2, e0)
          else
            let (s3, e1) :=
              if s.mode = Mode.pushToTalk then
                ({ s2 with suspendRecognition := true }, [Evt.recognitionStop])
              else (s2, [])
            (s3, e0 ++ e1 ++ [Evt.processTurn text])
        else (s1, e0)

/-- `recognition.onend` (page lines 524-546): whether the handler calls
`recognition.start()`.  `isActiveInstance` models the
`recognitionRef.current === recognition` identity check. -/
def onendRestarts (s : VoiceRefs) (isActiveInstance : Bool) : Bool :=
  if s.suspendRecognition then false
  else if s.mode = Mode.pushToTalk then false
  else if isActiveInstance ∧ s.stopped = false ∧ s.stateRef ≠ VState.idle then true
  else false

/-! ## Turn processor (`processUserInput`, page lines 738-865)

The function is split at its `await` points: the synchronous prefix up to
issuing the chat request, the success continuation that records the answer,
the post-playback continuation, and the `catch`/`finally` error handler. -/

inductive TurnStart
  | rejected
  | issued (tok : Nat)
deriving DecidableEq, Repr

/-- Lines 738-778: guards, processing flag, push-to-talk suspension, abort of
any previously stored query controller, and issuing of the new request. -/
def processUserInputStart (s : VoiceRefs) (text : Str) :
    VoiceRefs × TurnStart × List Evt :=
  if s.processing ∨ jsTrim text = [] then (s, TurnStart.rejected, [])
  else if s.stopped ∨ s.stateRef = VState.idle then (s, TurnStart.rejected, [])
  else
    let s := { s with processing := true, isProcessingUi := true }
    -- push-to-talk: make sure recognition is not running during thinking/speaking
    let (s, e1) :=
      if s.mode = Mode.pushToTalk ∧ s.recognition.isSome then
        ({ s with suspendRecognition := true }, [Evt.recognitionStop])
      else (s, ([] : List Evt))
    -- voice-chat mode shows 'thinking'; continuous stays 'listening'
    let s := if s.mode ≠ Mode.continuous then setVState s VState.thinking else s
    -- abort any previous query, then store the new controller
    let (s, e2) := match s.queryAbortTok with
      | some t => ({ s with queryAbortTok := none }, [Evt.cancelQuery t])
      | none => (s, [])
    let tok := s.nextTok
    let s := { s with queryAbortTok := some tok, nextTok := tok + 1 }
    (s, TurnStart.issued tok, e1 ++ e2 ++ [Evt.issueChatRequest tok])

/-- Lines 780-806: the continuation once the chat answer arrives, up to the
`playTTS` call.  Returns whether the answer was actually recorded. -/
def processTurnAnswer (s : VoiceRefs) (answer : Str) : VoiceRefs × Bool × List Evt :=
  if s.stopped ∨ s.stateRef = VState.idle then (s, false, [])
  else if answer = [] then (s, false, [])  -- `if (response.answer)` falsy check
  else
    -- store the response to filter echo, bounded most-recent-first history
    let s := { s with lastAssistantText := answer,
                      assistantUtterances := (answer :: s.assistantUtterances).take 3 }
    let s := { s with transcripts := addTranscript s.transcripts Role.assistant answer true }
    let s := if s.mode = Mode.continuous then setVState s VState.listening
             else setVState s VState.speaking
    (s, true, [Evt.addedTranscript Role.assistant answer true])

/-- Lines 815-838: after `playTTS` settles — schedule the 12s grace-period
clear, return to `listening`, and in push-to-talk restart recognition after a
200ms delay. -/
def processTurnAfterTts (now : Nat) (s : VoiceRefs) : VoiceRefs × List Evt :=
  if s.stopped ∨ s.stateRef = VState.idle then (s, [])
  else
    let e0 := [Evt.scheduleGraceClear 12000]
    let s := setVState s VState.listening
    if s.mode = Mode.pushToTalk ∧ s.recognition.isSome then
      ({ s with suspendRecognition := false, ignoreUntil := now + 900 },
       e0 ++ [Evt.scheduleRecStart 200])
    else (s, e0)

/-- The body of the grace-period `setTimeout` (page lines 818-820): it clears
`lastAssistantTextRef` only. -/
def graceTimerFire (s : VoiceRefs) : VoiceRefs :=
  { s with lastAssistantText := [] }

/-- The `finally` block (page lines 861-864). -/
def finallyReset (s : VoiceRefs) : VoiceRefs :=
  { s with processing := false, isProcessingUi := false }

/-- The `catch` block plus `finally` (page lines 840-864).  A synchronous
`recognition.start()` in the push-to-talk branch is recorded as
`scheduleRecStart 0`. -/
def processTurnError (now : Nat) (s : VoiceRefs) : VoiceRefs × List Evt :=
  if s.stopped then (finallyReset s, [])  -- cancellations triggered by Stop are ignored
  else if s.stateRef ≠ VState.idle then
    let s := setVState s VState.listening
    let s := { s with suspendRecognition := false }
    if s.mode = Mode.pushToTalk ∧ s.recognition.isSome then
      (finallyReset { s with ignoreUntil := now + 900 },
       [Evt.surfaceError, Evt.scheduleRecStart 0])
    else (finallyReset s, [Evt.surfaceError])
  else (finallyReset s, [Evt.surfaceError])

/-! ## Activity monitor (VAD) -/

/-- The polling interval handed to `window.setInterval` in
`startBargeInMonitor` (page line 423). -/
def vadPollIntervalMs : Nat := 80

/-- `requiredConsecutive` (page line 367). -/
def vadRequiredConsecutive : Nat := 3

/-- Whether the sampled analysis buffer is over threshold: the source computes
`rms = sqrt(sumSquares / data.length)` with `v = (data[i] - 128) / 128` and
compares `rms > 0.06`; since both sides are nonnegative this is equivalent to
the exact rational comparison `0.06^2 < sumSquares / data.length`. -/
def vadRmsOver (data : List Nat) : Bool :=
  let sumSquares : ℚ := (data.map (fun d => (((d : ℚ) - 128) / 128) ^ 2)).sum
  decide (((6 : ℚ)/100) ^ 2 < sumSquares / (data.length : ℚ))

/-- One tick of the VAD `setInterval` callback (page lines 368-423).  Returns
the new state, whether a barge-in fired, and the external effects. -/
def vadTick (now : Nat) (data : List Nat) (s : VoiceRefs) :
    VoiceRefs × Bool × List Evt :=
  if s.analyser = none then (s, false, [])
  else if ¬s.isSpeaking then ({ s with vadConsecutive := 0 }, false, [])
  else
    let c := if vadRmsOver data then s.vadConsecutive + 1 else 0
    if vadRequiredConsecutive ≤ c then
      let s := { s with vadConsecutive := 0 }
      -- barge-in: stop current TTS immediately
      let (s, e1) :=
        if s.audio.isSome then
          ({ s with audioCancelled := true }, [Evt.audioPause])
        else (s, ([] : List Evt))
      let s := { s with isSpeaking := false, ttsEndTime := now }
      let (s, e2) := stopBargeInMonitor s
      -- resume recognition after barge-in
      if s.stopped = false ∧ s.stateRef ≠ VState.idle then
        ({ s with suspendRecognition := false, ignoreUntil := now + 900 },
         true, e1 ++ e2 ++ [Evt.scheduleRecStart 150])
      else (s, true, e1 ++ e2)
    else ({ s with vadConsecutive := c }, false, [])

/-! ## Concrete sample inputs and states -/

/-- The assistant utterance of the spec's echo test. -/
def balanceUtterance : Str := "Your balance is five hundred rupees".toList

/-- The partial-echo candidate of the spec's echo test. -/
def balancePlusTicket : Str :=
  "Your balance is five hundred rupees and I need a ticket".toList

def strippedTicketRemainder : Str := "and I need a ticket".toList

/-- A live continuous-mode session in the middle of assistant playback, with
every resource acquired and a turn in flight. -/
def sampleSpeaking : VoiceRefs where
  mode := Mode.continuous
  uiState := VState.listening
  stateRef := VState.listening
  isProcessingUi := true
  transcripts := []
  stopped := false
  audioCancelled := false
  processing := true
  isSpeaking := true
  suspendRecognition := true
  ignoreUntil := 0
  lastTranscript := []
  lastAssistantText := "hi there friend".toList
  assistantUtterances := ["hi there friend".toList]
  ttsStartTime := 5000
  ttsEndTime := 0
  queryAbortTok := some 7
  ttsAbortTok := some 3
  nextTok := 8
  recognition := some ()
  audio := some ()
  audioUrl := some ()
  micStream := some ()
  audioContext := some ()
  analyser := some ()
  vadInterval := some ()
  vadConsecutive := 1

/-- A push-to-talk session waiting in `listening` with no turn in flight. -/
def samplePtt : VoiceRefs :=
  { sampleSpeaking with
      mode := Mode.pushToTalk
      processing := false
      isSpeaking := false
      suspendRecognition := false
      audio := none
      audioUrl := none
      analyser := none
      vadInterval := none
      vadConsecutive := 0 }

/-! ## Claim theorems -/

/-- C2: with the Assistant Utterance History holding exactly
"Your balance is five hundred rupees" and the classifier invoked within the
ignore window (`now = 100 < 500 = ignoreUntil`), a candidate equal to that
utterance scores overlap ratio 1 ≥ 0.85 and is discarded, while
"Your balance is five hundred rupees and I need a ticket" scores 5/8 ∈
[0.35, 0.85) and is stripped to the remainder "and I need a ticket". -/
theorem echo_discard_and_partial_strip_concrete :
    assistantEchoOverlapRatio balanceUtterance [balanceUtterance] balanceUtterance = 1 ∧
    (17/20 : ℚ) ≤ 1 ∧
    applyTailEchoFilter balanceUtterance [balanceUtterance] 100 500 balanceUtterance
      = none ∧
    assistantEchoOverlapRatio balanceUtterance [balanceUtterance] balancePlusTicket
      = 5/8 ∧
    (7/20 : ℚ) ≤ 5/8 ∧ (5/8 : ℚ) < 17/20 ∧
    stripAssistantEchoFromText balanceUtterance [balanceUtterance] balancePlusTicket
      = strippedTicketRemainder ∧
    applyTailEchoFilter balanceUtterance [balanceUtterance] 100 500 balancePlusTicket
      = some strippedTicketRemainder := by
  decide

/-- C1: within the ignore window, with a non-empty candidate history, the
recognition result is classified by its best word-overlap ratio: ≥ 0.85 the
transcript is discarded; in [0.35, 0.85) it is replaced by the output of
`stripAssistantEchoFromText` and kept only when that remainder is non-empty;
< 0.35 it is accepted unmodified. -/
theorem echo_classifier_trichotomy (lastText : Str) (utts : List Str)
    (now ignoreUntil : Nat) (text : Str)
    (hwin : ignoreUntil ≠ 0 ∧ now < ignoreUntil)
    (hhist : echoCandidates lastText utts ≠ []) :
    (17/20 ≤ assistantEchoOverlapRatio lastText utts text →
      applyTailEchoFilter lastText utts now ignoreUntil text = none) ∧
    (7/20 ≤ assistantEchoOverlapRatio lastText utts text →
      assistantEchoOverlapRatio lastText utts text < 17/20 →
      applyTailEchoFilter lastText utts now ignoreUntil text =
        (if stripAssistantEchoFromText lastText utts text = [] then none
         else some (stripAssistantEchoFromText lastText utts text)) ∧
      ∀ kept, applyTailEchoFilter lastText utts now ignoreUntil text = some kept →
        kept ≠ [] ∧ kept = stripAssistantEchoFromText lastText utts text) ∧
    (assistantEchoOverlapRatio lastText utts text < 7/20 →
      applyTailEchoFilter lastText utts now ignoreUntil text = some text) := by
  unfold applyTailEchoFilter
  rw [if_pos hwin]
  refine ⟨fun h1 => ?_, fun h2 h3 => ?_, fun h4 => ?_⟩
  · rw [if_pos h1]
  · rw [if_neg (not_le.mpr h3), if_pos h2]
    refine ⟨rfl, fun kept hk => ?_⟩
    by_cases hc : stripAssistantEchoFromText lastText utts text = []
    · rw [if_pos hc] at hk; exact absurd hk (by simp)
    · rw [if_neg hc] at hk
      exact ⟨by simpa using (Option.some_inj.mp hk) ▸ hc, (Option.some_inj.mp hk).symm⟩
  · have h5 : ¬ (17/20 : ℚ) ≤ assistantEchoOverlapRatio lastText utts text :=
      not_le.mpr (lt_trans h4 (by norm_num))
    rw [if_neg h5, if_neg (not_le.mpr h4)]

theorem echo_classifier_trichotomy_witness :
    ((500 : Nat) ≠ 0 ∧ (100 : Nat) < 500) ∧
    echoCandidates balanceUtterance [balanceUtterance] ≠ [] ∧
    ((17/20 : ℚ) ≤ assistantEchoOverlapRatio balanceUtterance [balanceUtterance]
        balanceUtterance) ∧
    applyTailEchoFilter balanceUtterance [balanceUtterance] 100 500 balanceUtterance
      = none := by
  refine ⟨⟨by decide, by decide⟩, by decide, by decide, ?_⟩
  exact (echo_classifier_trichotomy balanceUtterance [balanceUtterance] 100 500
    balanceUtterance ⟨by decide, by decide⟩ (by decide)).1 (by decide)

/-- C3: `stop()` from any state leaves the session idle with the recognizer,
player, activity-monitor timer and both cancellation tokens all null, and a
second `stop()` changes nothing and performs no further external effect,
whatever platform calls fail. -/
theorem stop_idempotent_teardown (f f2 : FailOracle) (s : VoiceRefs) :
    (stop f s).1.uiState = VState.idle ∧
    (stop f s).1.stateRef = VState.idle ∧
    (stop f s).1.recognition = none ∧
    (stop f s).1.audio = none ∧
    (stop f s).1.vadInterval = none ∧
    (stop f s).1.queryAbortTok = none ∧
    (stop f s).1.ttsAbortTok = none ∧
    stop f2 (stop f s).1 = ((stop f s).1, []) := by
  obtain ⟨m, us, sr, ipu, tr, st, ac, pr, sp, su, ig, lt, la, au, ts, te, qa, ta, nt,
    rec, aud, url, mic, actx, ana, vad, vc⟩ := s
  cases qa <;> cases ta <;> cases rec <;> cases aud <;> cases url <;> cases vad <;>
    exact ⟨rfl, rfl, rfl, rfl, rfl, rfl, rfl, rfl⟩

/-- C4 counterexample: `stop()` does not release the microphone stream, nor
close the audio context — after a full teardown both are still live (only the
unmount cleanup effect releases them). -/
theorem stop_mic_not_released_counterexample :
    (stop ⟨false, false, false, false⟩ sampleSpeaking).1.micStream = some () ∧
    (stop ⟨false, false, false, false⟩ sampleSpeaking).1.audioContext = some () := by
  decide

/-- C4 (amended): `stop()` never throws — whichever of the guarded platform
calls fail, the resulting state is the same (failures are absorbed and the
`finally` blocks still null the refs) — and its effects happen in source
order: mark non-restartable, cancel the query and TTS tokens, detach and stop
the recognizer, detach and pause the player, revoke the audio URL, stop the
activity-monitor timer; all flags and refs are reset, but the microphone
stream and audio context are left untouched. -/
theorem stop_best_effort_order (f : FailOracle) (s : VoiceRefs) :
    stop f s =
      ({ s with stopped := true, audioCancelled := true,
                stateRef := VState.idle, uiState := VState.idle,
                queryAbortTok := none, ttsAbortTok := none,
                recognition := none, audio := none, audioUrl := none,
                isSpeaking := false, suspendRecognition := false,
                vadInterval := none, vadConsecutive := 0,
                processing := false, lastTranscript := [], lastAssistantText := [],
                isProcessingUi := false },
       (match s.queryAbortTok with
        | some t => if f.abortQueryThrows then [] else [Evt.cancelQuery t]
        | none => []) ++
       (match s.ttsAbortTok with
        | some t => if f.abortTtsThrows then [] else [Evt.cancelTts t]
        | none => []) ++
       (match s.recognition with
        | some _ => Evt.detachRecHandlers ::
            (if f.recStopThrows then [] else [Evt.recognitionStop])
        | none => []) ++
       (match s.audio with
        | some _ => Evt.detachAudioHandlers ::
            (if f.audioPauseThrows then [] else [Evt.audioPause])
        | none => []) ++
       (match s.audioUrl with | some _ => [Evt.revokeUrl] | none => []) ++
       (match s.vadInterval with | some _ => [Evt.clearVadTimer] | none => [])) ∧
    (stop f s).1.micStream = s.micStream ∧
    (stop f s).1.audioContext = s.audioContext := by
  obtain ⟨m, us, sr, ipu, tr, st, ac, pr, sp, su, ig, lt, la, au, ts, te, qa, ta, nt,
    rec, aud, url, mic, actx, ana, vad, vc⟩ := s
  cases qa <;> cases ta <;> cases rec <;> cases aud <;> cases url <;> cases vad <;>
    exact ⟨rfl, rfl, rfl⟩

/-- A session with a turn currently in flight (`processing = true`, the
in-flight query's AbortController stored as token 7). -/
def sampleMidTurn : VoiceRefs := sampleSpeaking

/-- C5 counterexample: issuing a second turn while one is outstanding does
not cancel the outstanding token and does not issue a request — the call is
rejected outright (empty event trace, state unchanged). -/
theorem second_turn_rejected_counterexample :
    processUserInputStart sampleMidTurn ("hello".toList)
      = (sampleMidTurn, TurnStart.rejected, []) := by
  decide

/-- C5 (amended): at most one turn is in flight — a turn issued while
`processing` is set is rejected without cancelling anything or issuing a
request; when a turn does proceed, the previously stored (already settled)
query token is aborted before the new request is issued; and a completion
arriving after stop/idle does not mutate the transcript state. -/
theorem single_turn_in_flight (s : VoiceRefs) (text ans : Str) :
    (s.processing = true → processUserInputStart s text = (s, TurnStart.rejected, [])) ∧
    (s.processing = false → s.stopped = false → s.stateRef ≠ VState.idle →
      jsTrim text ≠ [] →
      (processUserInputStart s text).2.1 = TurnStart.issued s.nextTok ∧
      (processUserInputStart s text).1.queryAbortTok = some s.nextTok ∧
      (processUserInputStart s text).1.processing = true ∧
      ∃ pre, (processUserInputStart s text).2.2 = pre ++ [Evt.issueChatRequest s.nextTok] ∧
        ∀ t0, s.queryAbortTok = some t0 → Evt.cancelQuery t0 ∈ pre) ∧
    (s.stopped = true ∨ s.stateRef = VState.idle →
      processTurnAnswer s ans = (s, false, [])) := by
  refine ⟨fun hp => ?_, fun hp hst hid htr => ?_, fun hg => ?_⟩
  · unfold processUserInputStart
    rw [if_pos (Or.inl (by simp [hp]))]
  · rcases hq : s.queryAbortTok with _ | t0 <;>
      rcases hmode : s.mode <;>
        rcases hrec : s.recognition with _ | ⟨⟩ <;>
          simp [processUserInputStart, setVState, hq, hmode, hrec, hp, hst, hid, htr] <;>
            first
            | (refine ⟨[Evt.recognitionStop, Evt.cancelQuery t0], ?_, ?_⟩ <;> (simp; done))
            | (refine ⟨[Evt.cancelQuery t0], ?_, ?_⟩ <;> (simp; done))
            | (refine ⟨[Evt.recognitionStop], ?_⟩ <;> (simp; done))
            | (refine ⟨[], ?_⟩ <;> (simp; done))
  · unfold processTurnAnswer
    rw [if_pos (by simpa using hg)]

theorem single_turn_in_flight_witness :
    processUserInputStart sampleMidTurn ("hello".toList)
        = (sampleMidTurn, TurnStart.rejected, []) ∧
    (processUserInputStart samplePtt ("hello".toList)).2.1
        = TurnStart.issued samplePtt.nextTok ∧
    processTurnAnswer (stop ⟨false, false, false, false⟩ sampleSpeaking).1
        ("fine".toList)
      = ((stop ⟨false, false, false, false⟩ sampleSpeaking).1, false, []) := by
  refine ⟨(single_turn_in_flight sampleMidTurn ("hello".toList) []).1 (by decide),
    ((single_turn_in_flight samplePtt ("hello".toList) []).2.1 (by decide) (by decide)
      (by decide) (by decide)).1,
    (single_turn_in_flight (stop ⟨false, false, false, false⟩ sampleSpeaking).1
      ("hello".toList) ("fine".toList)).2.2 (Or.inl (by decide))⟩

/-- C6 counterexample: the push-to-talk restart in the error path is a
synchronous `recognition.start()` — delay 0, not the claimed 150-200ms. -/
theorem error_restart_no_delay_counterexample :
    (processTurnError 1000 samplePtt).2 = [Evt.surfaceError, Evt.scheduleRecStart 0] ∧
    ¬ (150 ≤ (0 : Nat)) := by
  decide

/-- C6 (amended): in push-to-talk mode the recognizer's natural-end handler
never calls `start()`; an accepted final result immediately suspends and stops
recognition and forwards the turn; the controller restarts recognition 200ms
after synthesis finishes, but after an error it restarts synchronously
(no delay). -/
theorem ptt_no_self_restart (now : Nat) (tr text : Str) (s : VoiceRefs)
    (isActive : Bool) :
    (s.mode = Mode.pushToTalk → onendRestarts s isActive = false) ∧
    (s.mode = Mode.pushToTalk → s.stopped = false → s.stateRef = VState.listening →
      s.suspendRecognition = false → s.processing = false → s.isSpeaking = false →
      applyTailEchoFilter s.lastAssistantText s.assistantUtterances now
          s.ignoreUntil (jsTrim tr) = some text →
      isSimilarToLastResponse now s.ttsStartTime s.ttsEndTime s.lastAssistantText
          s.assistantUtterances text = false →
      jsTrim text ≠ [] →
      ¬ (s.ignoreUntil ≠ 0 ∧ now < s.ignoreUntil ∧
          3/5 ≤ assistantEchoOverlapRatio s.lastAssistantText s.assistantUtterances text) →
      onresult now tr true s =
        ({ s with transcripts := addTranscript s.transcripts Role.user text true,
                  lastTranscript := text, suspendRecognition := true },
         [Evt.addedTranscript Role.user text true, Evt.recognitionStop,
          Evt.processTurn text])) ∧
    (s.mode = Mode.pushToTalk → s.recognition.isSome = true → s.stopped = false →
      s.stateRef ≠ VState.idle →
      (processTurnAfterTts now s).2
        = [Evt.scheduleGraceClear 12000, Evt.scheduleRecStart 200]) ∧
    (s.mode = Mode.pushToTalk → s.recognition.isSome = true → s.stopped = false →
      s.stateRef ≠ VState.idle →
      (processTurnError now s).2 = [Evt.surfaceError, Evt.scheduleRecStart 0]) := by
  refine ⟨fun hm => ?_, fun hm hst hls hsu hpr hsp hfil hsim htxt hdom => ?_,
    fun hm hrec hst hid => ?_, fun hm hrec hst hid => ?_⟩
  · cases hsv : s.suspendRecognition <;> simp [onendRestarts, hm, hsv]
  · simp only [onresult, hfil]
    simp [hm, hst, hls, hsu, hpr, hsp, hsim, htxt, hdom]
  · simp [processTurnAfterTts, setVState, hm, hrec, hst, hid]
  · simp [processTurnError, setVState, hm, hrec, hst, hid]

theorem ptt_no_self_restart_witness :
    onendRestarts samplePtt true = false ∧
    onresult 20000 ("I need help with my order".toList) true samplePtt =
      ({ samplePtt with
          transcripts := addTranscript samplePtt.transcripts Role.user
            ("I need help with my order".toList) true,
          lastTranscript := "I need help with my order".toList,
          suspendRecognition := true },
       [Evt.addedTranscript Role.user ("I need help with my order".toList) true,
        Evt.recognitionStop, Evt.processTurn ("I need help with my order".toList)]) ∧
    (processTurnAfterTts 20000 samplePtt).2
      = [Evt.scheduleGraceClear 12000, Evt.scheduleRecStart 200] := by
  have h := ptt_no_self_restart 20000 ("I need help with my order".toList)
    ("I need help with my order".toList) samplePtt true
  exact ⟨h.1 (by decide),
    h.2.1 (by decide) (by decide) (by decide) (by decide) (by decide) (by decide)
      (by decide) (by decide) (by decide) (by decide),
    h.2.2.1 (by decide) (by decide) (by decide) (by decide)⟩

/-- C7: one VAD tick — the counter resets whenever the controller is not
speaking; below-threshold samples reset it, over-threshold samples increment
it without firing until 3 consecutive; on the 3rd consecutive over-threshold
sample a single barge-in fires: playback is cancelled, the ignore window is
set to `now + 900`, the monitor stops itself, and a recognition restart is
scheduled after 150ms; the polling interval is 80ms. -/
theorem vad_barge_in_behavior (now : Nat) (data : List Nat) (s : VoiceRefs) :
    (s.analyser.isSome = true → s.isSpeaking = false →
      vadTick now data s = ({ s with vadConsecutive := 0 }, false, [])) ∧
    (s.analyser.isSome = true → s.isSpeaking = true → vadRmsOver data = false →
      vadTick now data s = ({ s with vadConsecutive := 0 }, false, [])) ∧
    (s.analyser.isSome = true → s.isSpeaking = true → vadRmsOver data = true →
      s.vadConsecutive + 1 < vadRequiredConsecutive →
      vadTick now data s = ({ s with vadConsecutive := s.vadConsecutive + 1 }, false, [])) ∧
    (s.analyser.isSome = true → s.isSpeaking = true → vadRmsOver data = true →
      vadRequiredConsecutive ≤ s.vadConsecutive + 1 →
      s.audio.isSome = true → s.vadInterval.isSome = true →
      s.stopped = false → s.stateRef ≠ VState.idle →
      vadTick now data s =
        ({ s with vadConsecutive := 0, audioCancelled := true, isSpeaking := false,
                  ttsEndTime := now, vadInterval := none,
                  suspendRecognition := false, ignoreUntil := now + 900 },
         true, [Evt.audioPause, Evt.clearVadTimer, Evt.scheduleRecStart 150])) ∧
    vadPollIntervalMs = 80 ∧ vadRequiredConsecutive = 3 := by
  refine ⟨fun ha hsp => ?_, fun ha hsp hr => ?_, fun ha hsp hr hc => ?_,
    fun ha hsp hr hc haud hvad hst hid => ?_, rfl, rfl⟩
  · rcases hA : s.analyser with _ | ⟨⟩
    · rw [hA] at ha; simp at ha
    · simp [vadTick, hA, hsp]
  · rcases hA : s.analyser with _ | ⟨⟩
    · rw [hA] at ha; simp at ha
    · simp [vadTick, hA, hsp, hr, vadRequiredConsecutive]
  · rcases hA : s.analyser with _ | ⟨⟩
    · rw [hA] at ha; simp at ha
    · have hlt : ¬ vadRequiredConsecutive ≤ s.vadConsecutive + 1 := by omega
      simp [vadTick, hA, hsp, hr, hlt]
  · rcases hA : s.analyser with _ | ⟨⟩
    · rw [hA] at ha; simp at ha
    · rcases hAu : s.audio with _ | ⟨⟩
      · rw [hAu] at haud; simp at haud
      · rcases hV : s.vadInterval with _ | ⟨⟩
        · rw [hV] at hvad; simp at hvad
        · simp [vadTick, stopBargeInMonitor, hA, hAu, hV, hsp, hr, hc, hst, hid]

theorem vad_barge_in_behavior_witness :
    vadTick 9000 [255, 255, 255, 255] { sampleSpeaking with vadConsecutive := 2 } =
      ({ sampleSpeaking with
          vadConsecutive := 0, audioCancelled := true, isSpeaking := false,
          ttsEndTime := 9000, vadInterval := none,
          suspendRecognition := false, ignoreUntil := 9900 },
       true, [Evt.audioPause, Evt.clearVadTimer, Evt.scheduleRecStart 150]) ∧
    vadTick 9000 [128, 128, 128, 128]
        { sampleSpeaking with vadConsecutive := 2 } =
      ({ sampleSpeaking with vadConsecutive := 0 }, false, []) := by
  constructor
  · have h := (vad_barge_in_behavior 9000 [255, 255, 255, 255]
      { sampleSpeaking with vadConsecutive := 2 }).2.2.2.1
    have hr : vadRmsOver [255, 255, 255, 255] = true := by decide
    simpa using h (by decide) (by decide) hr (by decide) (by decide) (by decide)
      (by decide) (by decide)
  · have h := (vad_barge_in_behavior 9000 [128, 128, 128, 128]
      { sampleSpeaking with vadConsecutive := 2 }).2.1
    have hr : vadRmsOver [128, 128, 128, 128] = false := by decide
    simpa using h (by decide) (by decide) hr

/-- C8: a failed chat call is silently absorbed when caused by the deliberate
stop (the `stopped` flag is set by `stop()`, which also aborts the in-flight
token); otherwise it is surfaced and the session returns to `listening` —
never `idle`, and never stuck in `thinking`/`speaking` — with the processing
flag cleared by the `finally`. -/
theorem chat_error_recovery (now : Nat) (s : VoiceRefs) :
    (s.stopped = true → processTurnError now s = (finallyReset s, [])) ∧
    (s.stopped = false → s.stateRef ≠ VState.idle →
      Evt.surfaceError ∈ (processTurnError now s).2 ∧
      (processTurnError now s).1.stateRef = VState.listening ∧
      (processTurnError now s).1.uiState = VState.listening ∧
      (processTurnError now s).1.stateRef ≠ VState.idle ∧
      (processTurnError now s).1.processing = false ∧
      (processTurnError now s).1.isProcessingUi = false) := by
  constructor
  · intro hst
    simp [processTurnError, hst]
  · intro hst hid
    by_cases hm : s.mode = Mode.pushToTalk ∧ s.recognition.isSome <;>
      simp [processTurnError, setVState, finallyReset, hst, hid, hm]

theorem chat_error_recovery_witness :
    processTurnError 1000 (stop ⟨false, false, false, false⟩ sampleSpeaking).1
      = (finallyReset (stop ⟨false, false, false, false⟩ sampleSpeaking).1, []) ∧
    (processTurnError 1000 sampleSpeaking).1.stateRef = VState.listening ∧
    Evt.surfaceError ∈ (processTurnError 1000 sampleSpeaking).2 := by
  refine ⟨(chat_error_recovery 1000
      (stop ⟨false, false, false, false⟩ sampleSpeaking).1).1 (by decide), ?_, ?_⟩
  · exact ((chat_error_recovery 1000 sampleSpeaking).2 (by decide) (by decide)).2.1
  · exact ((chat_error_recovery 1000 sampleSpeaking).2 (by decide) (by decide)).1

/-- C9 counterexample: when the 12-second grace timer fires it clears only
`lastAssistantTextRef`; the Assistant Utterance History itself is untouched
and remains non-empty. -/
theorem grace_timer_history_counterexample :
    (graceTimerFire sampleSpeaking).assistantUtterances = ["hi there friend".toList] ∧
    (graceTimerFire sampleSpeaking).assistantUtterances ≠ [] := by
  decide

/-- C9 (amended): after every recorded turn the Assistant Utterance History is
most-recent-first and bounded to 3 entries, and a 12-second grace-period timer
is scheduled — but that timer clears only the separate last-assistant-text
echo ref, never the history list. -/
theorem assistant_history_bounded_grace (now : Nat) (s : VoiceRefs) (ans : Str) :
    (s.stopped = false → s.stateRef ≠ VState.idle → ans ≠ [] →
      (processTurnAnswer s ans).1.assistantUtterances
          = (ans :: s.assistantUtterances).take 3 ∧
      (processTurnAnswer s ans).1.assistantUtterances.length ≤ 3 ∧
      ((processTurnAnswer s ans).1.assistantUtterances).head? = some ans) ∧
    (s.stopped = false → s.stateRef ≠ VState.idle →
      Evt.scheduleGraceClear 12000 ∈ (processTurnAfterTts now s).2) ∧
    graceTimerFire s = { s with lastAssistantText := [] } ∧
    (graceTimerFire s).assistantUtterances = s.assistantUtterances := by
  refine ⟨fun hst hid hans => ?_, fun hst hid => ?_, rfl, rfl⟩
  · have hbase : (processTurnAnswer s ans).1.assistantUtterances
        = (ans :: s.assistantUtterances).take 3 := by
      rcases hm : s.mode <;> simp [processTurnAnswer, setVState, hst, hid, hans, hm]
    refine ⟨hbase, ?_, ?_⟩
    · rw [hbase, List.length_take]
      exact min_le_left _ _
    · rw [hbase]
      simp [List.take_cons]
  · by_cases hm : s.mode = Mode.pushToTalk ∧ s.recognition.isSome <;>
      simp [processTurnAfterTts, setVState, hst, hid, hm]

theorem assistant_history_bounded_grace_witness :
    (processTurnAnswer samplePtt ("Sure thing".toList)).1.assistantUtterances
        = ["Sure thing".toList, "hi there friend".toList] ∧
    Evt.scheduleGraceClear 12000 ∈ (processTurnAfterTts 20000 samplePtt).2 ∧
    graceTimerFire samplePtt = { samplePtt with lastAssistantText := [] } := by
  have h := assistant_history_bounded_grace 20000 samplePtt ("Sure thing".toList)
  refine ⟨?_, h.2.1 (by decide) (by decide), h.2.2.1⟩
  have h1 := (h.1 (by decide) (by decide) (by decide)).1
  rw [h1]
  decide

/-! Helper lemmas for the transcript-log claim: a call of `addTranscript`
never changes an entry that is not the final one, and never shrinks the log. -/

theorem addTranscript_getElem?_stable (prev : List TranscriptEntry)
    (r : Role) (t : Str) (f : Bool) (i : Nat) (h : i + 1 < prev.length) :
    (addTranscript prev r t f)[i]? = prev[i]? := by
  induction prev using List.reverseRecOn with
  | nil => simp at h
  | append_singleton l e _ =>
    have hi : i < l.length := by
      have := h; simp only [List.length_append, List.length_singleton] at this; omega
    by_cases hg : r = Role.user ∧ f = false
    · by_cases hupd : e.isFinal = false ∧ e.role = Role.user
      · simp [addTranscript, hg, hupd, List.getLast?_concat, List.dropLast_concat,
          List.getElem?_append, hi]
      · simp [addTranscript, hg, hupd, List.getLast?_concat, List.getElem?_append, hi]
    · simp [addTranscript, hg, List.getElem?_append, hi]

theorem addTranscript_length_mono (prev : List TranscriptEntry)
    (r : Role) (t : Str) (f : Bool) :
    prev.length ≤ (addTranscript prev r t f).length := by
  induction prev using List.reverseRecOn with
  | nil => unfold addTranscript; split <;> simp
  | append_singleton l e _ =>
    by_cases hg : r = Role.user ∧ f = false
    · by_cases hupd : e.isFinal = false ∧ e.role = Role.user
      · simp [addTranscript, hg, hupd, List.getLast?_concat, List.dropLast_concat]
      · simp [addTranscript, hg, hupd, List.getLast?_concat]
    · simp [addTranscript, hg]

theorem applyTranscriptOps_getElem?_stable (ops : List (Role × Str × Bool))
    (prev : List TranscriptEntry) (i : Nat) (h : i + 1 < prev.length) :
    (applyTranscriptOps prev ops)[i]? = prev[i]? ∧
    prev.length ≤ (applyTranscriptOps prev ops).length := by
  induction ops generalizing prev with
  | nil => exact ⟨rfl, le_refl _⟩
  | cons op rest ih =>
    obtain ⟨r, t, f⟩ := op
    have hlen := addTranscript_length_mono prev r t f
    have h2 : i + 1 < (addTranscript prev r t f).length := by omega
    have := ih (addTranscript prev r t f) h2
    exact ⟨this.1.trans (addTranscript_getElem?_stable prev r t f i h),
      hlen.trans this.2⟩

/-- C10: `addTranscript` updates the last entry in place exactly when the
incoming result is an interim user result and the last entry is a non-final
user entry; a final user result always appends a fresh entry (it never
finalizes the pending interim one), so the preceding interim user entry stays
in the transcript list, still marked non-final, across every later call. -/
theorem addTranscript_interim_update_only (l : List TranscriptEntry)
    (e : TranscriptEntry) (t : Str) (ops : List (Role × Str × Bool)) :
    (∀ prev t2, addTranscript prev Role.user t2 true
        = prev ++ [⟨Role.user, t2, true⟩]) ∧
    (e.role = Role.user → e.isFinal = false →
      addTranscript (l ++ [e]) Role.user t false
        = l ++ [⟨Role.user, t, false⟩]) ∧
    (e.isFinal = true →
      addTranscript (l ++ [e]) Role.user t false
        = (l ++ [e]) ++ [⟨Role.user, t, false⟩]) ∧
    (e.role = Role.user → e.isFinal = false →
      (applyTranscriptOps (addTranscript (l ++ [e]) Role.user t true) ops)[l.length]?
        = some e) := by
  refine ⟨fun prev t2 => by simp [addTranscript], fun hrole hfin => ?_,
    fun hfin => ?_, fun hrole hfin => ?_⟩
  · simp [addTranscript, List.getLast?_concat, List.dropLast_concat, hrole, hfin]
  · simp [addTranscript, List.getLast?_concat, hfin]
  · have happ : addTranscript (l ++ [e]) Role.user t true
        = (l ++ [e]) ++ [⟨Role.user, t, true⟩] := by simp [addTranscript]
    rw [happ]
    have hlen : l.length + 1
        < ((l ++ [e]) ++ [(⟨Role.user, t, true⟩ : TranscriptEntry)]).length := by
      simp
    rw [(applyTranscriptOps_getElem?_stable ops _ l.length hlen).1,
      List.append_assoc]
    simp [List.getElem?_append, List.getElem_append_right]

theorem addTranscript_interim_update_only_witness :
    addTranscript [] Role.user ("tick".toList) true
        = [⟨Role.user, "tick".toList, true⟩] ∧
    addTranscript [⟨Role.user, "hel".toList, false⟩] Role.user ("hello".toList) false
        = [⟨Role.user, "hello".toList, false⟩] ∧
    (applyTranscriptOps
        (addTranscript [⟨Role.user, "hel".toList, false⟩] Role.user
          ("hello please".toList) true)
        [(Role.assistant, "sure".toList, true)])[0]?
      = some ⟨Role.user, "hel".toList, false⟩ := by
  have h := addTranscript_interim_update_only []
    (⟨Role.user, "hel".toList, false⟩ : TranscriptEntry) ("hello".toList)
    [(Role.assistant, "sure".toList, true)]
  refine ⟨h.1 [] ("tick".toList), ?_, ?_⟩
  · simpa using h.2.1 rfl rfl
  · have h4 := (addTranscript_interim_update_only []
      (⟨Role.user, "hel".toList, false⟩ : TranscriptEntry) ("hello please".toList)
      [(Role.assistant, "sure".toList, true)]).2.2.2 rfl rfl
    simpa using h4

end VoiceCtl
